import Mathlib

/-!
Verification of the account-scoped task store of a command-line todo
application (`src/main.rs`). The store keeps two in-memory maps
(`tasks : HashMap<u32, Task>`, `users : HashMap<String, User>`), a single
optional session identity (`current_user`) and a counter (`next_task_id`),
and mirrors the maps to two JSON files after every successful mutation.

The embedding below models the `HashMap`s as association lists (insertion
order; `insert` replaces in place, new keys are appended), machine `u32`
ids as `Nat`, `DateTime<Utc>` timestamps as a pair of seconds and
nanoseconds, and file I/O by an explicit `saveOk : Bool` parameter saying
whether the `fs::write` performed by the operation succeeds. Every
operation returns the resulting state together with the Rust function's
`Result`, whose error is the literal `&'static str` message of the source.
-/

namespace Todo

/-- A point in time: seconds since the Unix epoch plus a sub-second
nanosecond part, modelling chrono `DateTime<Utc>`. -/
structure Timestamp where
  secs : Int
  nanos : Nat
deriving DecidableEq

/-- The `Task` record of `main.rs`. -/
structure Task where
  id : Nat
  title : String
  description : String
  completed : Bool
  created_at : Timestamp
  user_id : String
deriving DecidableEq

/-- The `User` record of `main.rs`. -/
structure User where
  username : String
  password : String
deriving DecidableEq

/-- Insert into an association map: an existing key is overwritten in
place (as `HashMap::insert` does), a new key is appended. -/
def mapInsert {α β : Type} [DecidableEq α] (k : α) (v : β) :
    List (α × β) → List (α × β)
  | [] => [(k, v)]
  | (k₁, v₁) :: rest =>
      if k₁ = k then (k, v) :: rest else (k₁, v₁) :: mapInsert k v rest

/-- Lookup in an association map (`HashMap::get`). -/
def mapGet {α β : Type} [DecidableEq α] (k : α) : List (α × β) → Option β
  | [] => none
  | (k₁, v) :: rest => if k₁ = k then some v else mapGet k rest

/-- Remove a key from an association map (`HashMap::remove`). -/
def mapRemove {α β : Type} [DecidableEq α] (k : α) :
    List (α × β) → List (α × β)
  | [] => []
  | (k₁, v) :: rest =>
      if k₁ = k then mapRemove k rest else (k₁, v) :: mapRemove k rest

/-- The in-memory state of `TodoApp`. -/
structure TodoApp where
  tasks : List (Nat × Task)
  users : List (String × User)
  current_user : Option String
  next_task_id : Nat
deriving DecidableEq

namespace TodoApp

/-- Rust `TodoApp::new`. -/
def new : TodoApp :=
  { tasks := [], users := [], current_user := none, next_task_id := 1 }

/-- Rust `TodoApp::register`: duplicate-username check, in-memory insert, then
save of the user collection (`saveOk` tells whether the save succeeds). -/
def register (app : TodoApp) (username password : String) (saveOk : Bool) :
    TodoApp × Except String Unit :=
  if (mapGet username app.users).isSome then
    (app, .error "Username already exists")
  else
    let app₁ := { app with
      users := mapInsert username ⟨username, password⟩ app.users }
    if saveOk then (app₁, .ok ()) else (app₁, .error "Failed to save users")

/-- Rust `TodoApp::login`: sets the session identity when the username exists
and the stored password matches exactly. -/
def login (app : TodoApp) (username password : String) :
    TodoApp × Except String Unit :=
  match mapGet username app.users with
  | some user =>
      if user.password = password then
        ({ app with current_user := some username }, .ok ())
      else
        (app, .error "Invalid username or password")
  | none => (app, .error "Invalid username or password")

/-- Rust `TodoApp::add_task`: requires a session; builds the task with
`completed = false`, the current time and the session identity, inserts it
at `next_task_id`, increments the counter, then saves. The Rust function
returns `Result<(), &'static str>`: the success payload is `()`. -/
def add_task (app : TodoApp) (title description : String) (now : Timestamp)
    (saveOk : Bool) : TodoApp × Except String Unit :=
  match app.current_user with
  | none => (app, .error "Not logged in")
  | some user_id =>
      let task : Task :=
        { id := app.next_task_id, title := title, description := description,
          completed := false, created_at := now, user_id := user_id }
      let app₁ := { app with
        tasks := mapInsert app.next_task_id task app.tasks,
        next_task_id := app.next_task_id + 1 }
      if saveOk then (app₁, .ok ()) else (app₁, .error "Failed to save tasks")

/-- Rust `TodoApp::complete_task`: session check, then existence, then
ownership; on success sets `completed := true` in place and saves. -/
def complete_task (app : TodoApp) (task_id : Nat) (saveOk : Bool) :
    TodoApp × Except String Unit :=
  match app.current_user with
  | none => (app, .error "Not logged in")
  | some user_id =>
      match mapGet task_id app.tasks with
      | none => (app, .error "Task not found")
      | some task =>
          if task.user_id ≠ user_id then
            (app, .error "Not authorized to modify this task")
          else
            let app₁ := { app with
              tasks := mapInsert task_id { task with completed := true } app.tasks }
            if saveOk then (app₁, .ok ())
            else (app₁, .error "Failed to save tasks")

/-- Rust `TodoApp::edit_task`: same check order; on success overwrites `title`
and `description` in place and saves. -/
def edit_task (app : TodoApp) (task_id : Nat) (title description : String)
    (saveOk : Bool) : TodoApp × Except String Unit :=
  match app.current_user with
  | none => (app, .error "Not logged in")
  | some user_id =>
      match mapGet task_id app.tasks with
      | none => (app, .error "Task not found")
      | some task =>
          if task.user_id ≠ user_id then
            (app, .error "Not authorized to modify this task")
          else
            let app₁ := { app with
              tasks := mapInsert task_id
                { task with title := title, description := description }
                app.tasks }
            if saveOk then (app₁, .ok ())
            else (app₁, .error "Failed to save tasks")

/-- Rust `TodoApp::delete_task`: same check order; on success removes the task
and saves. -/
def delete_task (app : TodoApp) (task_id : Nat) (saveOk : Bool) :
    TodoApp × Except String Unit :=
  match app.current_user with
  | none => (app, .error "Not logged in")
  | some user_id =>
      match mapGet task_id app.tasks with
      | none => (app, .error "Task not found")
      | some task =>
          if task.user_id ≠ user_id then
            (app, .error "Not authorized to delete this task")
          else
            let app₁ := { app with tasks := mapRemove task_id app.tasks }
            if saveOk then (app₁, .ok ())
            else (app₁, .error "Failed to save tasks")

/-- Rust `TodoApp::list_tasks`: requires a session; yields the values of the
task map, in map order, filtered to the session identity. -/
def list_tasks (app : TodoApp) : Except String (List Task) :=
  match app.current_user with
  | none => .error "Not logged in"
  | some user_id =>
      .ok ((app.tasks.map Prod.snd).filter (fun t => t.user_id = user_id))

/-- Rust `TodoApp::logout`: unconditionally clears the session identity. -/
def logout (app : TodoApp) : TodoApp :=
  { app with current_user := none }

end TodoApp

/-- The serialized form of a `Task`: `created_at` is written by the
`ts_seconds` serde adapter as an integer count of seconds since the epoch,
so the nanosecond part is not represented. -/
structure TaskJson where
  id : Nat
  title : String
  description : String
  completed : Bool
  created_at : Int
  user_id : String
deriving DecidableEq

/-- Serialize one task (`serde_json::to_string` on a `Task`). -/
def encodeTask (t : Task) : TaskJson :=
  { id := t.id, title := t.title, description := t.description,
    completed := t.completed, created_at := t.created_at.secs,
    user_id := t.user_id }

/-- Deserialize one task: `ts_seconds` reads the integer back as a
timestamp with zero sub-second part. -/
def decodeTask (j : TaskJson) : Task :=
  { id := j.id, title := j.title, description := j.description,
    completed := j.completed, created_at := ⟨j.created_at, 0⟩,
    user_id := j.user_id }

/-- Rust `TodoApp::save_tasks`: serializes the whole task map. -/
def save_tasks (m : List (Nat × Task)) : List (Nat × TaskJson) :=
  m.map (fun p => (p.1, encodeTask p.2))

/-- Deserializing the task document back into the in-memory map. -/
def decode_tasks (m : List (Nat × TaskJson)) : List (Nat × Task) :=
  m.map (fun p => (p.1, decodeTask p.2))

/-- The maximum key of the task map (`self.tasks.keys().max()`). -/
def maxKey : List (Nat × Task) → Option Nat
  | [] => none
  | (k, _) :: rest =>
      match maxKey rest with
      | none => some k
      | some m => some (max k m)

/-- Rust `TodoApp::load_tasks`: `contents = none` models a missing file, which
is ignored; otherwise the parsed document replaces the task map and
`next_task_id` is recomputed as max key + 1, or 1 for an empty map. -/
def load_tasks (app : TodoApp) (contents : Option (List (Nat × TaskJson))) :
    TodoApp :=
  match contents with
  | none => app
  | some data =>
      let tasks := decode_tasks data
      { app with
        tasks := tasks,
        next_task_id :=
          match maxKey tasks with
          | none => 1
          | some m => m + 1 }

/-- Serialized form of a `User`: both fields are plain strings, written
verbatim. -/
structure UserJson where
  username : String
  password : String
deriving DecidableEq

/-- Serialize one user. -/
def encodeUser (u : User) : UserJson :=
  { username := u.username, password := u.password }

/-- Deserialize one user. -/
def decodeUser (j : UserJson) : User :=
  { username := j.username, password := j.password }

/-- Rust `TodoApp::save_users`: serializes the whole user map. -/
def save_users (m : List (String × User)) : List (String × UserJson) :=
  m.map (fun p => (p.1, encodeUser p.2))

/-- Deserializing the user document back into the in-memory map. -/
def decode_users (m : List (String × UserJson)) : List (String × User) :=
  m.map (fun p => (p.1, decodeUser p.2))

/-- The error kinds of the design, recovered from the literal error
messages the source returns. -/
inductive ErrKind where
  | duplicateUsername
  | invalidCredentials
  | notLoggedIn
  | taskNotFound
  | notAuthorized
  | persistenceFailed
deriving DecidableEq

/-- Map each error message of `main.rs` to its kind. -/
def errKind (msg : String) : Option ErrKind :=
  if msg = "Username already exists" then some .duplicateUsername
  else if msg = "Invalid username or password" then some .invalidCredentials
  else if msg = "Not logged in" then some .notLoggedIn
  else if msg = "Task not found" then some .taskNotFound
  else if msg = "Not authorized to modify this task" then some .notAuthorized
  else if msg = "Not authorized to delete this task" then some .notAuthorized
  else if msg = "Failed to save tasks" then some .persistenceFailed
  else if msg = "Failed to save users" then some .persistenceFailed
  else none

/-- One store operation together with its inputs; the `saveOk` argument of
mutating operations tells whether the file write they perform succeeds. -/
inductive Op where
  | opRegister (username password : String) (saveOk : Bool)
  | opLogin (username password : String)
  | opLogout
  | opAdd (title description : String) (now : Timestamp) (saveOk : Bool)
  | opComplete (task_id : Nat) (saveOk : Bool)
  | opEdit (task_id : Nat) (title description : String) (saveOk : Bool)
  | opDelete (task_id : Nat) (saveOk : Bool)
  | opList

/-- Run one operation: resulting state and result (the payload of
`list_tasks` is dropped; it never mutates). -/
def stepResult (app : TodoApp) : Op → TodoApp × Except String Unit
  | .opRegister u p so => app.register u p so
  | .opLogin u p => app.login u p
  | .opLogout => (app.logout, .ok ())
  | .opAdd t d now so => app.add_task t d now so
  | .opComplete i so => app.complete_task i so
  | .opEdit i t d so => app.edit_task i t d so
  | .opDelete i so => app.delete_task i so
  | .opList =>
      (app, match app.list_tasks with
            | .ok _ => .ok ()
            | .error e => .error e)

/-- The state after one operation. -/
def step (app : TodoApp) (op : Op) : TodoApp :=
  (stepResult app op).1

/-- Whether an operation is an `add_task` call that succeeds from the
given state: a session is active and the save succeeds. -/
def isSuccessfulAdd (app : TodoApp) : Op → Bool
  | .opAdd _ _ _ so => so && app.current_user.isSome
  | _ => false

/-- The ids allocated by the successful `add_task` calls of a run, in call
order. -/
def allocIds (app : TodoApp) : List Op → List Nat
  | [] => []
  | op :: rest =>
      if isSuccessfulAdd app op then
        app.next_task_id :: allocIds (step app op) rest
      else
        allocIds (step app op) rest

/-- What one round trip through the task file does to a task: every field
is kept, except that the sub-second part of `created_at` is dropped. -/
def truncTask (t : Task) : Task :=
  { t with created_at := ⟨t.created_at.secs, 0⟩ }

/-- A concrete task owned by "alice", with a nonzero sub-second part. -/
def sampleTask : Task :=
  { id := 1, title := "Buy milk", description := "two percent",
    completed := false, created_at := ⟨100, 42⟩, user_id := "alice" }

/-- A concrete store: alice and bob registered, alice owns task 1, the
session identity is "bob". -/
def sampleApp : TodoApp :=
  { tasks := [(1, sampleTask)],
    users := [("alice", { username := "alice", password := "pw1" }),
              ("bob", { username := "bob", password := "pwb" })],
    current_user := some "bob",
    next_task_id := 2 }

/-- The same store with "alice" (the owner of task 1) logged in. -/
def sampleAppAlice : TodoApp :=
  { sampleApp with current_user := some "alice" }

/-! Association-map lemmas -/

theorem mapGet_insert_self {α β : Type} [DecidableEq α] (k : α) (v : β)
    (m : List (α × β)) : mapGet k (mapInsert k v m) = some v := by
  induction m with
  | nil => simp [mapInsert, mapGet]
  | cons p rest ih =>
      obtain ⟨k₁, v₁⟩ := p
      by_cases h : k₁ = k <;> simp [mapInsert, mapGet, h, ih]

theorem mapGet_insert_of_ne {α β : Type} [DecidableEq α] {j k : α} (v : β)
    (m : List (α × β)) (h : j ≠ k) :
    mapGet j (mapInsert k v m) = mapGet j m := by
  induction m with
  | nil => simp [mapInsert, mapGet, Ne.symm h]
  | cons p rest ih =>
      obtain ⟨k₁, v₁⟩ := p
      by_cases hk : k₁ = k <;> by_cases hj : k₁ = j <;>
        simp_all [mapInsert, mapGet, Ne.symm h]

theorem mapGet_mapVal {α β γ : Type} [DecidableEq α] (f : β → γ) (k : α)
    (m : List (α × β)) :
    mapGet k (m.map (fun p => (p.1, f p.2))) = (mapGet k m).map f := by
  induction m with
  | nil => simp [mapGet]
  | cons p rest ih =>
      by_cases h : p.1 = k <;> simp [mapGet, h, ih]

/-! Serialization round-trip lemmas -/

theorem decode_save_tasks (ts : List (Nat × Task)) :
    decode_tasks (save_tasks ts) = ts.map (fun p => (p.1, truncTask p.2)) := by
  induction ts with
  | nil => rfl
  | cons p rest ih =>
      simp only [save_tasks, decode_tasks, List.map_cons] at ih ⊢
      exact congrArg _ ih

theorem decode_save_users (us : List (String × User)) :
    decode_users (save_users us) = us := by
  induction us with
  | nil => rfl
  | cons p rest ih =>
      simp only [save_users, decode_users, List.map_cons] at ih ⊢
      rw [ih]
      rfl

theorem maxKey_mapVal (f : Task → Task) (m : List (Nat × Task)) :
    maxKey (m.map (fun p => (p.1, f p.2))) = maxKey m := by
  induction m with
  | nil => rfl
  | cons p rest ih => simp [maxKey, ih]

/-! Claim theorems -/

/-- Claim C9: `list_tasks` is deterministic — its result is a function of
the task map and the session identity alone, so two calls on a fixed store
state and session identity return the owned tasks in the same order. -/
theorem C9_list_tasks_deterministic (a₁ a₂ : TodoApp)
    (hts : a₁.tasks = a₂.tasks) (hcu : a₁.current_user = a₂.current_user) :
    a₁.list_tasks = a₂.list_tasks := by
  unfold TodoApp.list_tasks
  rw [hts, hcu]

theorem C9_witness :
    sampleApp.list_tasks =
      TodoApp.list_tasks { sampleApp with users := [], next_task_id := 99 } :=
  C9_list_tasks_deterministic _ _ rfl rfl

/-- Claim C8: saving the task collection and loading it back yields the
same entries — same ids, every field of every record equal, with
`created_at` preserved at one-second granularity (the sub-second part is
dropped by the integer-seconds serialization); the user collection
round-trips exactly. -/
theorem C8_save_load_round_trip (ts : List (Nat × Task))
    (us : List (String × User)) :
    decode_tasks (save_tasks ts) = ts.map (fun p => (p.1, truncTask p.2))
    ∧ (decode_tasks (save_tasks ts)).map Prod.fst = ts.map Prod.fst
    ∧ (∀ (k : Nat) (t : Task), mapGet k ts = some t →
        mapGet k (decode_tasks (save_tasks ts)) =
          some { id := t.id, title := t.title, description := t.description,
                 completed := t.completed,
                 created_at := ⟨t.created_at.secs, 0⟩, user_id := t.user_id })
    ∧ decode_users (save_users us) = us := by
  refine ⟨decode_save_tasks ts, ?_, ?_, decode_save_users us⟩
  · rw [decode_save_tasks]
    simp [List.map_map]
  · intro k t ht
    rw [decode_save_tasks, mapGet_mapVal, ht]
    rfl

theorem C8_witness :
    mapGet 1 (decode_tasks (save_tasks [(1, sampleTask)])) =
      some { id := 1, title := "Buy milk", description := "two percent",
             completed := false, created_at := ⟨100, 0⟩, user_id := "alice" } := by
  have h := (C8_save_load_round_trip [(1, sampleTask)] []).2.2.1 1 sampleTask rfl
  simpa [sampleTask] using h

/-- Claim C6: a successful `edit_task` on an owned task overwrites exactly
`title` and `description`, keeps `completed`, `created_at`, `id` and
`user_id`, leaves every other task untouched, and in particular does not
reset a completed task to pending. -/
theorem C6_edit_preserves_frame (app : TodoApp) (i : Nat) (T D u : String)
    (task : Task) (hu : app.current_user = some u)
    (ht : mapGet i app.tasks = some task) (hown : task.user_id = u) :
    (app.edit_task i T D true).2 = .ok ()
    ∧ mapGet i (app.edit_task i T D true).1.tasks =
        some { id := task.id, title := T, description := D,
               completed := task.completed, created_at := task.created_at,
               user_id := task.user_id }
    ∧ (∀ j, j ≠ i →
        mapGet j (app.edit_task i T D true).1.tasks = mapGet j app.tasks)
    ∧ (task.completed = true →
        (mapGet i (app.edit_task i T D true).1.tasks).map Task.completed =
          some true) := by
  refine ⟨?_, ?_, ?_, ?_⟩
  · simp [TodoApp.edit_task, hu, ht, hown]
  · simp [TodoApp.edit_task, hu, ht, hown, mapGet_insert_self]
  · intro j hj
    simp [TodoApp.edit_task, hu, ht, hown, mapGet_insert_of_ne _ _ hj]
  · intro hc
    simp [TodoApp.edit_task, hu, ht, hown, mapGet_insert_self, hc]

theorem C6_witness :
    (sampleAppAlice.edit_task 1 "New title" "New text" true).2 = .ok ()
    ∧ mapGet 1 (sampleAppAlice.edit_task 1 "New title" "New text" true).1.tasks =
        some { id := 1, title := "New title", description := "New text",
               completed := false, created_at := ⟨100, 42⟩,
               user_id := "alice" } := by
  have h := C6_edit_preserves_frame sampleAppAlice 1 "New title" "New text"
    "alice" sampleTask rfl rfl rfl
  exact ⟨h.1, by simpa [sampleTask] using h.2.1⟩

/-- Claim C7: when the save fails during `register` or `add_task`, the
operation reports a failure, yet the in-memory insertion has already
happened and is not rolled back. -/
theorem C7_persistence_failure_keeps_insert (app : TodoApp)
    (u p T D : String) (now : Timestamp) :
    ((mapGet u app.users).isSome = false →
        app.register u p false =
          ({ app with
              users := mapInsert u { username := u, password := p } app.users },
           .error "Failed to save users"))
    ∧ (∀ uid, app.current_user = some uid →
        app.add_task T D now false =
          ({ app with
              tasks := mapInsert app.next_task_id
                { id := app.next_task_id, title := T, description := D,
                  completed := false, created_at := now, user_id := uid }
                app.tasks,
              next_task_id := app.next_task_id + 1 },
           .error "Failed to save tasks")) := by
  constructor
  · intro h
    simp [TodoApp.register, h]
  · intro uid hcu
    simp [TodoApp.add_task, hcu]

theorem C7_witness :
    TodoApp.register TodoApp.new "alice" "pw1" false =
      ({ TodoApp.new with
          users := [("alice", { username := "alice", password := "pw1" })] },
       .error "Failed to save users") := by
  have h := (C7_persistence_failure_keeps_insert TodoApp.new "alice" "pw1"
    "t" "d" ⟨0, 0⟩).1 rfl
  simpa [TodoApp.new, mapInsert] using h

/-- Claim C5 (amended): `add_task` with an active session allocates the
next id, creates the task with `completed = false`, the creation time and
the session identity as owner, inserts it, and returns the unit success
marker (not the new id); with no session it fails with the not-logged-in
error. -/
theorem C5_add_task_behavior (app : TodoApp) (T D : String) (now : Timestamp)
    (so : Bool) :
    (app.current_user = none →
        app.add_task T D now so = (app, .error "Not logged in"))
    ∧ (∀ u, app.current_user = some u →
        mapGet app.next_task_id (app.add_task T D now so).1.tasks =
          some { id := app.next_task_id, title := T, description := D,
                 completed := false, created_at := now, user_id := u }
        ∧ (app.add_task T D now so).1.next_task_id = app.next_task_id + 1
        ∧ (so = true → (app.add_task T D now so).2 = .ok ())) := by
  constructor
  · intro h
    simp [TodoApp.add_task, h]
  · intro u hcu
    refine ⟨?_, ?_, ?_⟩
    · cases so <;> simp [TodoApp.add_task, hcu, mapGet_insert_self]
    · cases so <;> simp [TodoApp.add_task, hcu]
    · intro hso
      subst hso
      simp [TodoApp.add_task, hcu]

/-- Claim C5 as stated says the new task id is returned to the caller; the
source's `add_task` has result type `Result<(), &'static str>`. Two runs
that allocate the different ids 5 and 7 both return the bare success
marker `ok ()`, and the two results are equal, so the return value cannot
carry the allocated id. -/
theorem C5_counterexample :
    (TodoApp.add_task { sampleAppAlice with next_task_id := 5 }
        "t" "d" ⟨0, 0⟩ true).2 = .ok ()
    ∧ (TodoApp.add_task { sampleAppAlice with next_task_id := 7 }
        "t" "d" ⟨0, 0⟩ true).2 = .ok ()
    ∧ (TodoApp.add_task { sampleAppAlice with next_task_id := 5 }
        "t" "d" ⟨0, 0⟩ true).2 =
      (TodoApp.add_task { sampleAppAlice with next_task_id := 7 }
        "t" "d" ⟨0, 0⟩ true).2
    ∧ mapGet 5 (TodoApp.add_task { sampleAppAlice with next_task_id := 5 }
        "t" "d" ⟨0, 0⟩ true).1.tasks ≠
      mapGet 5 (TodoApp.add_task { sampleAppAlice with next_task_id := 7 }
        "t" "d" ⟨0, 0⟩ true).1.tasks :=
  ⟨rfl, rfl, rfl, by decide⟩

theorem C5_witness :
    mapGet 2 (sampleAppAlice.add_task "Call mom" "today" ⟨5, 0⟩ true).1.tasks =
      some { id := 2, title := "Call mom", description := "today",
             completed := false, created_at := ⟨5, 0⟩, user_id := "alice" }
    ∧ (sampleAppAlice.add_task "Call mom" "today" ⟨5, 0⟩ true).1.next_task_id = 3
    ∧ TodoApp.add_task { sampleAppAlice with current_user := none }
        "x" "y" ⟨0, 0⟩ true =
      ({ sampleAppAlice with current_user := none },
       .error "Not logged in") := by
  have h₂ := (C5_add_task_behavior sampleAppAlice "Call mom" "today"
    ⟨5, 0⟩ true).2 "alice" rfl
  have h₃ := (C5_add_task_behavior { sampleAppAlice with current_user := none }
    "x" "y" ⟨0, 0⟩ true).1 rfl
  exact ⟨by simpa [sampleAppAlice, sampleApp] using h₂.1,
    by simpa [sampleAppAlice, sampleApp] using h₂.2.1, h₃⟩

/-- Claim C1: ownership isolation. A task created while `u₁` is logged in
is stamped with owner `u₁`; while `u₂ ≠ u₁` is logged in, a task owned by
`u₁` never appears in `list_tasks`, and `complete_task`, `edit_task` and
`delete_task` on its id fail with the not-authorized errors (whose kind is
`NotAuthorized`) and leave the state unchanged. -/
theorem C1_ownership_isolation (u₁ u₂ : String) (hne : u₁ ≠ u₂) :
    (∀ (app : TodoApp) (T D : String) (now : Timestamp) (so : Bool),
        app.current_user = some u₁ →
        mapGet app.next_task_id (app.add_task T D now so).1.tasks =
          some { id := app.next_task_id, title := T, description := D,
                 completed := false, created_at := now, user_id := u₁ })
    ∧ (∀ (app : TodoApp) (i : Nat) (task : Task),
        app.current_user = some u₂ → mapGet i app.tasks = some task →
        task.user_id = u₁ →
        (∀ l, app.list_tasks = .ok l → task ∉ l)
        ∧ (∀ so, app.complete_task i so =
              (app, .error "Not authorized to modify this task"))
        ∧ (∀ so T D, app.edit_task i T D so =
              (app, .error "Not authorized to modify this task"))
        ∧ (∀ so, app.delete_task i so =
              (app, .error "Not authorized to delete this task"))
        ∧ errKind "Not authorized to modify this task" =
            some ErrKind.notAuthorized
        ∧ errKind "Not authorized to delete this task" =
            some ErrKind.notAuthorized) := by
  constructor
  · intro app T D now so hcu
    cases so <;> simp [TodoApp.add_task, hcu, mapGet_insert_self]
  · intro app i task hcu ht hown
    have hneq : task.user_id ≠ u₂ := by
      rw [hown]; exact hne
    refine ⟨?_, ?_, ?_, ?_, by decide, by decide⟩
    · intro l hl hmem
      simp only [TodoApp.list_tasks, hcu] at hl
      injection hl with hl
      subst hl
      rcases List.mem_filter.mp hmem with ⟨-, hp⟩
      exact hneq (by simpa using hp)
    · intro so
      simp [TodoApp.complete_task, hcu, ht, hneq]
    · intro so T D
      simp [TodoApp.edit_task, hcu, ht, hneq]
    · intro so
      simp [TodoApp.delete_task, hcu, ht, hneq]

theorem C1_witness :
    (∀ l, sampleApp.list_tasks = .ok l → sampleTask ∉ l)
    ∧ sampleApp.complete_task 1 true =
        (sampleApp, .error "Not authorized to modify this task")
    ∧ sampleApp.edit_task 1 "x" "y" true =
        (sampleApp, .error "Not authorized to modify this task")
    ∧ sampleApp.delete_task 1 true =
        (sampleApp, .error "Not authorized to delete this task") := by
  have h := (C1_ownership_isolation "alice" "bob" (by decide)).2
    sampleApp 1 sampleTask rfl rfl rfl
  exact ⟨h.1, h.2.1 true, h.2.2.1 true "x" "y", h.2.2.2.1 true⟩

/-- Claim C2: `complete_task`, `edit_task` and `delete_task` check the
session first, then existence, then ownership: with no session the result
is the not-logged-in error whatever the id; with a session and a missing
id it is the task-not-found error; with a session and an existing foreign
task it is the not-authorized error, never task-not-found. -/
theorem C2_error_check_order (app : TodoApp) (i : Nat) (T D : String)
    (so : Bool) :
    (app.current_user = none →
        app.complete_task i so = (app, .error "Not logged in")
        ∧ app.edit_task i T D so = (app, .error "Not logged in")
        ∧ app.delete_task i so = (app, .error "Not logged in"))
    ∧ (∀ u, app.current_user = some u → mapGet i app.tasks = none →
        app.complete_task i so = (app, .error "Task not found")
        ∧ app.edit_task i T D so = (app, .error "Task not found")
        ∧ app.delete_task i so = (app, .error "Task not found"))
    ∧ (∀ u task, app.current_user = some u → mapGet i app.tasks = some task →
        task.user_id ≠ u →
        app.complete_task i so =
          (app, .error "Not authorized to modify this task")
        ∧ app.edit_task i T D so =
            (app, .error "Not authorized to modify this task")
        ∧ app.delete_task i so =
            (app, .error "Not authorized to delete this task")) := by
  refine ⟨?_, ?_, ?_⟩
  · intro h
    exact ⟨by simp [TodoApp.complete_task, h],
      by simp [TodoApp.edit_task, h], by simp [TodoApp.delete_task, h]⟩
  · intro u hcu ht
    exact ⟨by simp [TodoApp.complete_task, hcu, ht],
      by simp [TodoApp.edit_task, hcu, ht],
      by simp [TodoApp.delete_task, hcu, ht]⟩
  · intro u task hcu ht hne
    exact ⟨by simp [TodoApp.complete_task, hcu, ht, hne],
      by simp [TodoApp.edit_task, hcu, ht, hne],
      by simp [TodoApp.delete_task, hcu, ht, hne]⟩

theorem C2_witness :
    TodoApp.complete_task { sampleApp with current_user := none } 1 true =
      ({ sampleApp with current_user := none }, .error "Not logged in")
    ∧ sampleApp.complete_task 99 true = (sampleApp, .error "Task not found")
    ∧ sampleApp.delete_task 1 true =
        (sampleApp, .error "Not authorized to delete this task") := by
  have h₁ := (C2_error_check_order { sampleApp with current_user := none }
    1 "a" "b" true).1 rfl
  have h₂ := (C2_error_check_order sampleApp 99 "a" "b" true).2.1 "bob" rfl rfl
  have h₃ := (C2_error_check_order sampleApp 1 "a" "b" true).2.2 "bob"
    sampleTask rfl rfl (by decide)
  exact ⟨h₁.1, h₂.1, h₃.2.2⟩

/-- Every operation either leaves the state unchanged, or succeeds, or
fails on the save of one of the two files. -/
theorem step_cases (app : TodoApp) (op : Op) :
    step app op = app ∨ (stepResult app op).2 = .ok ()
    ∨ (stepResult app op).2 = .error "Failed to save tasks"
    ∨ (stepResult app op).2 = .error "Failed to save users" := by
  cases op <;>
    simp only [step, stepResult, TodoApp.register, TodoApp.login,
      TodoApp.logout, TodoApp.add_task, TodoApp.complete_task,
      TodoApp.edit_task, TodoApp.delete_task, TodoApp.list_tasks] <;>
    (repeat' split) <;> simp

/-- Claim C10: an operation that returns a validation or precondition
error (any error other than a persistence failure) leaves the whole
in-memory state unchanged. -/
theorem C10_validation_errors_leave_state (app : TodoApp) (op : Op)
    (e : String) (he : (stepResult app op).2 = .error e)
    (hk : errKind e ≠ some ErrKind.persistenceFailed) :
    step app op = app := by
  rcases step_cases app op with h | h | h | h
  · exact h
  · rw [he] at h
    cases h
  · rw [he] at h
    injection h with h'
    subst h'
    exact absurd (by decide) hk
  · rw [he] at h
    injection h with h'
    subst h'
    exact absurd (by decide) hk

theorem C10_witness :
    step sampleApp (Op.opLogin "alice" "wrong") = sampleApp ∧
    (stepResult sampleApp (Op.opLogin "alice" "wrong")).2 =
      .error "Invalid username or password" :=
  ⟨C10_validation_errors_leave_state sampleApp (Op.opLogin "alice" "wrong")
      "Invalid username or password" rfl (by decide), rfl⟩

/-- Claim C4: at load time `next_task_id` becomes the maximum persisted id
plus one (or 1 for an empty collection), so after persisting tasks with
maximum id `k` and restarting, the next `add_task` allocates id `k + 1`. -/
theorem C4_reload_id_continuity (ts : List (Nat × Task)) (k : Nat)
    (u T D : String) (now : Timestamp) (so : Bool)
    (hmax : maxKey ts = some k) :
    (load_tasks TodoApp.new (some (save_tasks ts))).next_task_id = k + 1
    ∧ (load_tasks TodoApp.new (some [])).next_task_id = 1
    ∧ mapGet (k + 1)
        (TodoApp.add_task
          { load_tasks TodoApp.new (some (save_tasks ts)) with
              current_user := some u } T D now so).1.tasks =
      some { id := k + 1, title := T, description := D, completed := false,
             created_at := now, user_id := u } := by
  have hkeys : maxKey (decode_tasks (save_tasks ts)) = some k := by
    rw [decode_save_tasks, maxKey_mapVal, hmax]
  refine ⟨by simp [load_tasks, hkeys], rfl, ?_⟩
  cases so <;>
    simp [TodoApp.add_task, load_tasks, hkeys, mapGet_insert_self]

theorem C4_witness :
    (load_tasks TodoApp.new (some (save_tasks [(1, sampleTask)]))).next_task_id = 2
    ∧ mapGet 2
        (TodoApp.add_task
          { load_tasks TodoApp.new (some (save_tasks [(1, sampleTask)])) with
              current_user := some "alice" } "a" "b" ⟨7, 0⟩ true).1.tasks =
      some { id := 2, title := "a", description := "b", completed := false,
             created_at := ⟨7, 0⟩, user_id := "alice" } := by
  have h := C4_reload_id_continuity [(1, sampleTask)] 1 "alice" "a" "b"
    ⟨7, 0⟩ true rfl
  exact ⟨h.1, h.2.2⟩

/-- `next_task_id` never decreases across any operation. -/
theorem next_task_id_le_step (app : TodoApp) (op : Op) :
    app.next_task_id ≤ (step app op).next_task_id := by
  cases op <;>
    simp only [step, stepResult, TodoApp.register, TodoApp.login,
      TodoApp.logout, TodoApp.add_task, TodoApp.complete_task,
      TodoApp.edit_task, TodoApp.delete_task, TodoApp.list_tasks] <;>
    (repeat' split) <;> simp

/-- A successful `add_task` step increments `next_task_id` by one. -/
theorem step_next_of_successful_add (app : TodoApp) (op : Op)
    (h : isSuccessfulAdd app op = true) :
    (step app op).next_task_id = app.next_task_id + 1 := by
  cases op
  case opAdd T D now so =>
    simp only [isSuccessfulAdd, Bool.and_eq_true] at h
    obtain ⟨hso, hcu⟩ := h
    subst hso
    rcases Option.isSome_iff_exists.mp hcu with ⟨u, hu⟩
    simp [step, stepResult, TodoApp.add_task, hu]
  all_goals exact Bool.noConfusion h

/-- Every id allocated in a run is at least the `next_task_id` of the
starting state. -/
theorem allocIds_lower (ops : List Op) :
    ∀ (app : TodoApp) (i : Nat), i ∈ allocIds app ops →
      app.next_task_id ≤ i := by
  induction ops with
  | nil =>
      intro app i h
      simp [allocIds] at h
  | cons op rest ih =>
      intro app i h
      by_cases hs : isSuccessfulAdd app op = true
      · rw [allocIds, if_pos hs] at h
        rcases List.mem_cons.mp h with h | h
        · subst h
          exact Nat.le_refl _
        · exact Nat.le_trans (next_task_id_le_step app op) (ih _ _ h)
      · rw [allocIds, if_neg hs] at h
        exact Nat.le_trans (next_task_id_le_step app op) (ih _ _ h)

/-- The allocated ids of any run are strictly increasing in call order. -/
theorem allocIds_pairwise (ops : List Op) :
    ∀ app : TodoApp, List.Pairwise (· < ·) (allocIds app ops) := by
  induction ops with
  | nil =>
      intro app
      simp [allocIds]
  | cons op rest ih =>
      intro app
      by_cases hs : isSuccessfulAdd app op = true
      · rw [allocIds, if_pos hs]
        refine List.Pairwise.cons ?_ (ih _)
        intro i hi
        have h₁ := allocIds_lower rest (step app op) i hi
        have h₂ := step_next_of_successful_add app op hs
        omega
      · rw [allocIds, if_neg hs]
        exact ih _

/-- Claim C3: across any sequence of operations within one process
lifetime, the ids allocated by the successful `add_task` calls are
strictly increasing and pairwise distinct (no id is reused), and each
`add_task` performed with an active session increments `next_task_id` by
exactly one. -/
theorem C3_ids_strictly_increasing :
    (∀ (app : TodoApp) (ops : List Op),
        List.Pairwise (· < ·) (allocIds app ops)
        ∧ (allocIds app ops).Nodup)
    ∧ (∀ (app : TodoApp) (u T D : String) (now : Timestamp) (so : Bool),
        app.current_user = some u →
        (app.add_task T D now so).1.next_task_id = app.next_task_id + 1) := by
  constructor
  · intro app ops
    refine ⟨allocIds_pairwise ops app, ?_⟩
    exact List.Pairwise.imp (fun h => Nat.ne_of_lt h) (allocIds_pairwise ops app)
  · intro app u T D now so hcu
    cases so <;> simp [TodoApp.add_task, hcu]

theorem C3_witness :
    List.Pairwise (· < ·)
      (allocIds sampleAppAlice
        [Op.opAdd "a" "b" ⟨0, 0⟩ true, Op.opComplete 1 true,
         Op.opAdd "c" "d" ⟨1, 0⟩ true])
    ∧ (sampleAppAlice.add_task "a" "b" ⟨0, 0⟩ true).1.next_task_id = 3 := by
  refine ⟨(C3_ids_strictly_increasing.1 sampleAppAlice _).1, ?_⟩
  have h := C3_ids_strictly_increasing.2 sampleAppAlice "alice" "a" "b"
    ⟨0, 0⟩ true rfl
  simpa [sampleAppAlice, sampleApp] using h

end Todo
